import Mathlib

/-!
Verification of `src/WPAPILib.js` (WPAPILib, a WordPress API client for
Node.js).  The JavaScript source is shallowly embedded: strings are Lean
`String`s, header objects are association lists from header name to value,
and the relevant JavaScript string builtins (`split`, `join`, `trim`,
`toLowerCase`, `includes`, `indexOf`, `substring`, `startsWith`) are given
executable Lean counterparts with the same semantics at the call sites used
by the library.
-/

namespace WPAPILib

/-! ## JavaScript string builtins -/

/-- JS `String.prototype.toLowerCase` restricted to ASCII (all strings the
library compares are ASCII). -/
def jsToLower (s : String) : String :=
  String.mk (s.data.map Char.toLower)

/-- Whitespace characters removed by JS `String.prototype.trim` (the ones
that occur in HTTP header values). -/
def jsIsWS (c : Char) : Bool :=
  c == ' ' || c == '\t' || c == '\n' || c == '\r'

/-- JS `String.prototype.trim`. -/
def jsTrim (s : String) : String :=
  String.mk (((s.data.dropWhile jsIsWS).reverse.dropWhile jsIsWS).reverse)

/-- JS `String.prototype.startsWith`. -/
def jsStartsWith (s pre : String) : Bool :=
  pre.data.isPrefixOf s.data

/-- First index at which `sub` occurs in `s` (leftmost match), if any. -/
def firstMatch : List Char → List Char → Option Nat
  | [], sub => if sub.isEmpty then some 0 else none
  | c :: rest, sub =>
    if sub.isPrefixOf (c :: rest) then some 0
    else (firstMatch rest sub).map Nat.succ

/-- JS `String.prototype.includes` (substring search). -/
def jsIncludes (s sub : String) : Bool :=
  (firstMatch s.data sub.data).isSome

/-- JS `String.prototype.indexOf(sub, fromIndex)`: a negative
`fromIndex` is clamped to 0, and the result is -1 when `sub` does not
occur at or after the clamped position.  All call sites in the source use
a non-empty `sub`. -/
def jsIndexOf (s sub : String) (fromIdx : Int) : Int :=
  let start := if fromIdx < 0 then 0 else fromIdx.toNat
  match firstMatch (s.data.drop start) sub.data with
  | some i => Int.ofNat (start + i)
  | none => -1

/-- JS `String.prototype.substring(a, b)`: each argument is clamped to
`[0, length]` and the two are swapped when `a > b`. -/
def jsSubstring (s : String) (a b : Int) : String :=
  let len := s.data.length
  let clamp : Int → Nat := fun i => if i < 0 then 0 else min i.toNat len
  let lo := min (clamp a) (clamp b)
  let hi := max (clamp a) (clamp b)
  String.mk ((s.data.take hi).drop lo)

/-- Worker for `jsSplit`; `fuel` bounds the recursion (one unit per
character examined, so `s.length + 1` always suffices). -/
def jsSplitAux (sep : List Char) : Nat → List Char → List Char → List (List Char)
  | 0, s, acc => [acc.reverse ++ s]
  | fuel + 1, s, acc =>
    match s with
    | [] => [acc.reverse]
    | c :: rest =>
      if sep ≠ [] ∧ sep.isPrefixOf (c :: rest) then
        acc.reverse :: jsSplitAux sep fuel ((c :: rest).drop sep.length) []
      else
        jsSplitAux sep fuel rest (c :: acc)

/-- JS `String.prototype.split(sep)` for a non-empty separator string
(every call site in the source splits on `","`, `";"` or `"//"`). -/
def jsSplit (s sep : String) : List String :=
  (jsSplitAux sep.data (s.data.length + 1) s.data []).map String.mk

/-- JS `Array.prototype.join(sep)`. -/
def jsJoin (sep : String) : List String → String
  | [] => ""
  | [x] => x
  | x :: y :: rest => x ++ sep ++ jsJoin sep (y :: rest)

/-! ## Header objects

A JavaScript header object is modelled as an association list from header
name to value; `Object.getOwnPropertyDescriptor(headers, name)` returning
`undefined` corresponds to `lookupHeader` returning `none`. -/

def Headers : Type := List (String × String)

/-- Lookup of an own property of a JS object (keys are unique in a JS
object; the first binding wins in the list model). -/
def lookupHeader (headers : List (String × String)) (name : String) : Option String :=
  (headers.find? (fun p => p.1 == name)).map Prod.snd

/-! ## Protocol Negotiator: isHTTP2Upgrade (source lines 241-269) -/

/-- Translation of `isHTTP2Upgrade(headers)`: requires both a
`connection` and an `upgrade` header, both non-empty, the lower-cased
`connection` value to contain `"upgrade"`, and some comma-separated token
of the `upgrade` value to trim/lower-case to `"h2"` or `"h2c"`.  (The
JS `value == null` test can never fire for a string-valued own property
and is subsumed by `none` in the lookup.) -/
def isHTTP2Upgrade (headers : List (String × String)) : Bool :=
  match lookupHeader headers "connection", lookupHeader headers "upgrade" with
  | some conn, some upg =>
    if upg == "" then false
    else if conn == "" then false
    else if jsIncludes (jsToLower conn) "upgrade" == false then false
    else (jsSplit upg ",").any
      (fun t => jsToLower (jsTrim t) == "h2" || jsToLower (jsTrim t) == "h2c")
  | _, _ => false

/-! ## Session state and login cookie handling (source lines 52-60, 204-220)

`login` performs network exchanges; its pure cookie-processing core
(lines 204-220) is embedded as a state transformer on the session's
`_authCookies` field.  The `set-cookie` header of a Node response is
either absent (`none`) or an array of strings (`some cookies`). -/

structure SessionState where
  authCookies : Option (List String)
deriving DecidableEq, Repr

/-- Translation of the `authenticated` getter (lines 52-60): false when
`_authCookies` is null/undefined or has length 0. -/
def authenticated (s : SessionState) : Bool :=
  match s.authCookies with
  | none => false
  | some l => !(l.length == 0)

/-- Translation of the `authHeader` getter (lines 68-77). -/
def authHeader (s : SessionState) : Option String :=
  match s.authCookies with
  | none => none
  | some l => if l.length == 0 then none else some (jsJoin "; " l)

/-- The cookie filter of `login` (lines 211-217): keep the entries whose
name starts with `wordpress_` or `wp_`, truncated at the first `;`. -/
def filterAuthCookies (cookies : List String) : List String :=
  (cookies.filter (fun c => jsStartsWith c "wordpress_" || jsStartsWith c "wp_")).map
    (fun c => (jsSplit c ";").headD c)

/-- Translation of `login`'s cookie-processing tail (lines 204-220) as a
state transformer.  Absent header (line 205) and the loose-equality
emptiness test `cookiesDesc.value == ""` (line 208, which coerces the
array to `join(",")`) throw before `_authCookies` is reassigned at line
211; the zero-match failure (line 218) throws after it has been
reassigned to the filtered (empty) list. -/
def loginCookieStep (s : SessionState) (setCookie : Option (List String)) :
    SessionState × Except String (List String) :=
  match setCookie with
  | none => (s, Except.error "No cookies received in server response.")
  | some cookies =>
    if jsJoin "," cookies == "" then
      (s, Except.error "Empty cookies received in server response.")
    else
      let filtered := filterAuthCookies cookies
      let s' : SessionState := { authCookies := some filtered }
      if filtered.length == 0 then
        (s', Except.error "Authentication cookies not received in server response.")
      else
        (s', Except.ok filtered)

/-! ## Transport adapters (source lines 432-486 and 508-547)

The asynchronous builders are embedded as step functions over an explicit
exchange record.  A JS `Promise` is a single-settlement cell; the record
also tracks whether the builder itself threw a synchronous exception and
whether any network activity was initiated. -/

inductive JSErr where
  | unsupportedProtocol (protocol : String)
  | typeErrorNullDeref
  | referenceErrorRejectUndefined
  | wrapped (msg : String)
deriving DecidableEq, Repr

inductive PromiseState where
  | wiredForResponse
  | rejected (e : JSErr)
deriving DecidableEq, Repr

structure H1Build where
  promise : PromiseState
  requestCreated : Bool
  syncThrown : Option JSErr
  networkAttempted : Bool
deriving DecidableEq, Repr

/-- Translation of `buildHTTP1Request` (lines 432-486) restricted to the
scheme dispatch and promise wiring.  The Promise executor (lines 446-478)
switches on `this._baseURL.protocol`: for `http:`/`https:` it creates the
request and installs the response handlers (which close over `resolve`);
for any other scheme it calls `reject(new Error("Unsupported protocol ..."))`
and leaves `returnObj.request` null.  After the executor returns, lines
479-484 run unconditionally: with a null request, `request.write` (when
`data != null`) or `request.on` (line 482) dereferences null, so the
builder throws a synchronous TypeError after having rejected the promise,
without any network call having been made. -/
def buildHTTP1Request (protocol : String) (_hasData : Bool) : H1Build :=
  if protocol == "http:" || protocol == "https:" then
    { promise := PromiseState.wiredForResponse
      requestCreated := true
      syncThrown := none
      networkAttempted := true }
  else
    { promise := PromiseState.rejected (JSErr.unsupportedProtocol protocol)
      requestCreated := false
      syncThrown := some JSErr.typeErrorNullDeref
      networkAttempted := false }

/-- Effect of a low-level transport error event (e.g. ECONNREFUSED) on an
HTTP/1.1 exchange: the listener attached at line 482 runs
`reject(new Error(error))` (line 483), but the listener registration sits
after the Promise executor closes at line 478, so the executor parameter
`reject` is not in scope at line 483; invoking the listener raises a
ReferenceError and the promise is never settled.  Returns the promise
state after the event together with the error escaping the listener. -/
def h1TransportErrorEvent (b : H1Build) (_msg : String) : PromiseState × Option JSErr :=
  if b.requestCreated then
    (b.promise, some JSErr.referenceErrorRejectUndefined)
  else
    (b.promise, none)

structure H2Build where
  promise : PromiseState
  syncThrown : Option JSErr
  networkAttempted : Bool
deriving DecidableEq, Repr

/-- Translation of `buildHTTP2Request` (lines 508-547) restricted to the
scheme dispatch and promise wiring.  Inside the Promise executor (lines
515-545), a scheme other than `http:`/`https:` rejects the promise with
the unsupported-protocol error (lines 516-518) but does not return, so
control reaches `http2.connect` (line 519); Node's `http2.connect`
validates the scheme synchronously and throws for any scheme other than
`http:`/`https:` before opening a connection, the Promise constructor
swallows the executor's exception (the promise is already rejected), and
`buildHTTP2Request` returns the exchange normally at line 546. -/
def buildHTTP2Request (protocol : String) : H2Build :=
  if protocol == "http:" || protocol == "https:" then
    { promise := PromiseState.wiredForResponse
      syncThrown := none
      networkAttempted := true }
  else
    { promise := PromiseState.rejected (JSErr.unsupportedProtocol protocol)
      syncThrown := none
      networkAttempted := false }

/-! ## Settings retrieval (source lines 285-311) -/

/-- Translation of the marker extraction of `getAPISettings` (lines
290-302): locate `"var wpApiSettings"`, then the next brace from that
index, then the next brace-semicolon from that index plus one, and take
the substring between the two (all with JS `indexOf`/`substring`
semantics, in particular the clamping of `-1` to position 0). -/
def extractSettingsStr (data : String) : String :=
  let settingsIndex := jsIndexOf data "var wpApiSettings" 0
  let objStartIndex := jsIndexOf data "\x7b" settingsIndex
  let objEndIndex := jsIndexOf data "\x7d;" settingsIndex + 1
  jsSubstring data objStartIndex objEndIndex

/-- Worker for `parseFlatJSON`: reads the characters of a JSON string up
to the closing quote (no escape sequences, which never occur in the
settings objects exercised here). -/
def takeJSONStr : List Char → Option (List Char × List Char)
  | [] => none
  | c :: rest =>
    if c == '"' then some ([], rest)
    else (takeJSONStr rest).map (fun p => (c :: p.1, p.2))

/-- Worker for `parseFlatJSON`: parses `"k":"v"` members separated by
commas; `fuel` bounds the recursion. -/
def parseJSONMembers : Nat → List Char → Option (List (String × String) × List Char)
  | 0, _ => none
  | fuel + 1, cs =>
    match cs with
    | '"' :: rest =>
      match takeJSONStr rest with
      | none => none
      | some (k, rest2) =>
        match rest2 with
        | ':' :: '"' :: rest3 =>
          match takeJSONStr rest3 with
          | none => none
          | some (v, rest4) =>
            match rest4 with
            | ',' :: rest5 =>
              (parseJSONMembers fuel rest5).map
                (fun p => ((String.mk k, String.mk v) :: p.1, p.2))
            | _ => some ([(String.mk k, String.mk v)], rest4)
        | _ => none
    | _ => none

/-- Model of `JSON.parse` on the inputs exercised here: a flat,
whitespace-free object literal with string keys and string values
(`\x7b"k":"v",...\x7d`); anything else fails to parse.  The settings
object scraped from `wp-admin/post-new.php` has exactly this shape. -/
def parseFlatJSON (s : String) : Option (List (String × String)) :=
  match s.data with
  | '\x7b' :: rest =>
    match rest with
    | ['\x7d'] => some []
    | _ =>
      match parseJSONMembers rest.length rest with
      | some (ms, ['\x7d']) => some ms
      | _ => none
  | _ => none

/-- Translation of the control flow of `getAPISettings` (lines 285-311):
an unauthenticated session throws (lines 286-288); a synchronous throw
from `request.end()` returns `false` (lines 293-297); otherwise the
extracted substring is parsed, a parse failure propagating as an error
(line 303) and success returning `true` (line 310). -/
def getAPISettings (isAuthenticated : Bool) (endThrows : Bool) (body : String) :
    Except String Bool :=
  if isAuthenticated == false then
    Except.error "You must be authenticated (login) before getting API settings."
  else if endThrows then
    Except.ok false
  else
    match parseFlatJSON (extractSettingsStr body) with
    | none => Except.error "SyntaxError: unexpected token in JSON"
    | some _ => Except.ok true

/-! ## callAPI result assembly (source lines 349-354)

The dynamically-typed result object is embedded in a small universe of
JS values. -/

inductive JSVal where
  | vNull
  | vNum (n : Nat)
  | vStr (s : String)
  | vObj (fields : List (String × JSVal))
/-- Field lookup on a JS object value. -/
def getField : JSVal → String → Option JSVal
  | JSVal.vObj fs, k => (fs.find? (fun p => p.1 == k)).map Prod.snd
  | _, _ => none

/-- Translation of lines 349-354 of `callAPI`: the resolved object is
assembled as `request := reqResObj.request`, `response :=
reqResObj.response`, `status := reqResObj.response` (line 352 assigns the
response object itself, not `statusCode`), `data := reqResObj.data`. -/
def callAPIResponseObj (request response data : JSVal) : JSVal :=
  JSVal.vObj
    [("request", request), ("response", response), ("status", response), ("data", data)]

/-- Result assembly of `login` (lines 222-228) for comparison: `status`
is assigned `response.statusCode` (line 189/225). -/
def loginResponseObj (request response status authCookies apiSettings : JSVal) : JSVal :=
  JSVal.vObj
    [("request", request), ("response", response), ("status", status),
     ("authCookies", authCookies), ("APISettings", apiSettings)]

/-! ## Header Builder (source lines 381-402, 560-571) -/

/-- `Object.defineProperty(headerObj, name, ...)` on a plain object:
redefines the binding in place when the key exists, appends it otherwise. -/
def defineProp : List (String × String) → String → String → List (String × String)
  | [], n, v => [(n, v)]
  | (k, w) :: rest, n, v =>
    if k == n then (k, v) :: rest else (k, w) :: defineProp rest n v

/-- Translation of `addHeader` (lines 560-571): a null/undefined
`headerObj` is replaced by a fresh object, then the name/value pair is
installed by `Object.defineProperty`, overwriting any existing binding. -/
def addHeader (name value : String) (headerObj : Option (List (String × String))) :
    List (String × String) :=
  let h := match headerObj with
    | none => []
    | some h => h
  defineProp h name value

/-- Number of bindings of `name` in a header object. -/
def countKey (h : List (String × String)) (name : String) : Nat :=
  h.countP (fun p => p.1 == name)

/-- Translation of the header assembly of `buildRequest` (lines
381-402).  At line 382 the `headers` argument passed to the first
`addHeader` call is the not-yet-initialised `var headers` (undefined by
hoisting), so a fresh object is created; each later call threads the
same object through.  `dataLen` stands for `Buffer.byteLength(data)` of
the url-encoded body. -/
def buildRequestHeaders (isAuthenticated useAuth : Bool) (authHdr userAgent : String)
    (apiNonce : Option String) (data : Option String) : List (String × String) :=
  let headers := addHeader "Content-Type" "application/x-www-form-urlencoded" none
  let headers := match data with
    | none => addHeader "Content-Length" "0" (some headers)
    | some d => addHeader "Content-Length" (toString d.utf8ByteSize) (some headers)
  let headers := addHeader "Accept"
    "application/json,text/javascript,text/html,application/xhtml+xml,application/xml, */*"
    (some headers)
  let headers := addHeader "Accept-Encoding" "identity" (some headers)
  let headers := addHeader "Accept-Language" "en-CA,en-US,en" (some headers)
  let headers := addHeader "User-Agent" userAgent (some headers)
  if isAuthenticated && useAuth then
    let headers := addHeader "Cookie" authHdr (some headers)
    match apiNonce with
    | some n => addHeader "X-WP-Nonce" n (some headers)
    | none => headers
  else
    addHeader "Cookie" "humans_21909=1" (some headers)

/-! ## Path construction (source lines 341-342, 403-404) -/

/-- The `route.split("//").join("/")` idiom used at lines 342 and 404:
a single left-to-right pass replacing each non-overlapping occurrence of
`"//"` with `"/"`. -/
def jsSplitJoinSlashes (s : String) : String :=
  jsJoin "/" (jsSplit s "//")

/-- Translation of lines 403-404 of `buildRequest`: the full path is
`this._baseURL.pathname + "/" + path` with the split/join pass applied. -/
def buildRequestFullPath (basePathname path : String) : String :=
  jsSplitJoinSlashes (basePathname ++ "/" ++ path)

/-- Translation of lines 341-342 of `callAPI`: the route is
`APIGateway + APIVersionString + endpoint` with the split/join pass
applied. -/
def callAPIRoute (gateway versionString endpoint : String) : String :=
  jsSplitJoinSlashes (gateway ++ versionString ++ endpoint)

/-- JS `typeof` on the embedded value universe (objects and null both
report "object", as in JS). -/
def jsTypeOf : JSVal → String
  | JSVal.vNull => "object"
  | JSVal.vNum _ => "number"
  | JSVal.vStr _ => "string"
  | JSVal.vObj _ => "object"

/-! ## The useHTTP2 flag (source lines 84-89, 191-203)

The only write of `true` to `this._useHTTP2` in the source is line 192,
guarded by `isHTTP2Upgrade(response.headers)` inside `login`; the getter
(lines 84-89) initialises the field to `false` when it is still
undefined and otherwise returns it unchanged.  No statement in the file
ever assigns `false` to an initialised `_useHTTP2`.  Session operations
are abstracted accordingly: an operation either observes a login
response's headers (line 191-192) or does not touch the flag. -/

inductive SessionOp where
  | loginObserve (headers : List (String × String))
  | other
deriving DecidableEq

/-- Effect of one session operation on `_useHTTP2` (lines 191-192: set to
`true` when the observed headers signal an upgrade, otherwise leave it). -/
def stepUseHTTP2 (b : Bool) : SessionOp → Bool
  | SessionOp.loginObserve hs => if isHTTP2Upgrade hs then true else b
  | SessionOp.other => b

/-- `_useHTTP2` after a sequence of session operations on a freshly
constructed client (getter default `false`, lines 84-89). -/
def runUseHTTP2 (ops : List SessionOp) : Bool :=
  List.foldl stepUseHTTP2 false ops

/-! ## Supporting lemmas -/

/-- The Boolean `List.isPrefixOf` agrees with the `<+:` relation. -/
theorem isPrefixOf_iff_pre (l₁ l₂ : List Char) : l₁.isPrefixOf l₂ = true ↔ l₁ <+: l₂ := by
  induction l₁ generalizing l₂ with
  | nil => simp [List.isPrefixOf]
  | cons a as ih =>
    cases l₂ with
    | nil => simp [List.isPrefixOf]
    | cons b bs =>
      simp [List.isPrefixOf, List.cons_prefix_cons, ih]

/-- Occurrence of a sublist in a cons cell: either at the head or in the
tail. -/
theorem isInfixOf_cons_iff (l t : List Char) (a : Char) :
    l <:+: a :: t ↔ l <+: a :: t ∨ l <:+: t := by
  constructor
  · rintro ⟨s, u, h⟩
    cases s with
    | nil =>
      exact Or.inl ⟨u, by simpa using h⟩
    | cons b s' =>
      right
      rw [List.cons_append, List.cons_append, List.cons.injEq] at h
      exact ⟨s', u, h.2⟩
  · rintro (⟨u, h⟩ | ⟨s, u, h⟩)
    · exact ⟨[], u, by simpa using h⟩
    · exact ⟨a :: s, u, by rw [← h]; rfl⟩

/-- Mapping a function over an option does not change `isSome`. -/
theorem isSome_map_succ (o : Option Nat) : (Option.map Nat.succ o).isSome = o.isSome := by
  cases o <;> rfl

/-- `firstMatch` succeeds exactly when the pattern occurs as a sublist. -/
theorem firstMatch_isSome_iff (s sub : List Char) :
    (firstMatch s sub).isSome = true ↔ sub <:+: s := by
  induction s with
  | nil =>
    cases sub with
    | nil => exact ⟨fun _ => ⟨[], [], rfl⟩, fun _ => rfl⟩
    | cons c cs =>
      simp only [firstMatch, List.isEmpty_cons, if_false, Option.isSome_none,
        false_iff, Bool.false_eq_true]
      rintro ⟨s, u, h⟩
      simp at h
  | cons c rest ih =>
    simp only [firstMatch]
    by_cases h : sub.isPrefixOf (c :: rest)
    · simp only [h, if_true, Option.isSome_some, true_iff]
      exact (isInfixOf_cons_iff sub rest c).mpr (Or.inl ((isPrefixOf_iff_pre _ _).mp h))
    · have h' : ¬ sub <+: c :: rest := fun hp => h ((isPrefixOf_iff_pre _ _).mpr hp)
      simp only [h, if_false, isSome_map_succ, ih, isInfixOf_cons_iff, Bool.false_eq_true]
      tauto

/-- `jsIncludes` is substring occurrence. -/
theorem jsIncludes_iff (s sub : String) :
    jsIncludes s sub = true ↔ sub.data <:+: s.data :=
  firstMatch_isSome_iff s.data sub.data

/-! ## Claim theorems -/

/-- C1: `isHTTP2Upgrade` returns true for a response header collection
iff both a `connection` and an `upgrade` header are present and
non-empty, the lower-cased `connection` value contains the substring
"upgrade", and splitting the `upgrade` value on commas yields some token
that, trimmed and lower-cased, equals "h2" or "h2c"; any missing or
empty header makes the result false.  In particular it returns true for
connection "Upgrade" with upgrade "h2c", false for connection
"keep-alive" without an upgrade header, and false for upgrade
"websocket" without a connection header. -/
theorem isHTTP2Upgrade_spec (headers : List (String × String)) :
    (isHTTP2Upgrade headers = true ↔
      ∃ conn upg, lookupHeader headers "connection" = some conn ∧
        lookupHeader headers "upgrade" = some upg ∧
        conn ≠ "" ∧ upg ≠ "" ∧
        "upgrade".data <:+: (jsToLower conn).data ∧
        ∃ t ∈ jsSplit upg ",",
          (jsToLower (jsTrim t) = "h2" ∨ jsToLower (jsTrim t) = "h2c")) ∧
    isHTTP2Upgrade [("connection", "Upgrade"), ("upgrade", "h2c")] = true ∧
    isHTTP2Upgrade [("connection", "keep-alive")] = false ∧
    isHTTP2Upgrade [("upgrade", "websocket")] = false := by
  refine ⟨?_, by decide, by decide, by decide⟩
  cases hc : lookupHeader headers "connection" with
  | none =>
    simp [isHTTP2Upgrade, hc]
  | some conn =>
    cases hu : lookupHeader headers "upgrade" with
    | none =>
      simp [isHTTP2Upgrade, hc, hu]
    | some upg =>
      simp only [isHTTP2Upgrade, hc, hu, Option.some.injEq, exists_eq_left']
      by_cases h1 : upg = ""
      · simp [h1]
      by_cases h2 : conn = ""
      · simp [h1, h2]
      by_cases h3 : jsIncludes (jsToLower conn) "upgrade" = true
      · simp [h1, h2, h3, (jsIncludes_iff _ _).mp h3, List.any_eq_true]
      · have h3' : jsIncludes (jsToLower conn) "upgrade" = false := by
          rcases Bool.eq_false_or_eq_true (jsIncludes (jsToLower conn) "upgrade") with hf | ht'
          · exact absurd hf h3
          · exact ht'
        have hni : ¬ ("upgrade".data <:+: (jsToLower conn).data) := by
          intro hin
          rw [(jsIncludes_iff _ _).mpr hin] at h3'
          cases h3'
        simp [h1, h2, h3', hni]

/-- C1 witness: the theorem applied to the first concrete example. -/
theorem isHTTP2Upgrade_spec_witness :
    isHTTP2Upgrade [("connection", "Upgrade"), ("upgrade", "h2c")] = true :=
  (isHTTP2Upgrade_spec [("connection", "Upgrade"), ("upgrade", "h2c")]).2.1

/-- `jsSplitAux` never returns the empty list. -/
theorem jsSplitAux_ne_nil (sep : List Char) (fuel : Nat) :
    ∀ s acc, jsSplitAux sep fuel s acc ≠ [] := by
  induction fuel with
  | zero =>
    intro s acc
    simp [jsSplitAux]
  | succ n ih =>
    intro s acc
    cases s with
    | nil => simp [jsSplitAux]
    | cons c rest =>
      simp only [jsSplitAux]
      split
      · simp
      · exact ih rest (c :: acc)

/-- Head of a semicolon split: the characters before the first `;`. -/
theorem jsSplitAux_semi_head (fuel : Nat) :
    ∀ s acc, s.length ≤ fuel →
      (jsSplitAux [';'] fuel s acc).headD [] =
        acc.reverse ++ s.takeWhile (fun ch => ch ≠ ';') := by
  induction fuel with
  | zero =>
    intro s acc hs
    rw [Nat.le_zero, List.length_eq_zero] at hs
    subst hs
    simp [jsSplitAux]
  | succ n ih =>
    intro s acc hs
    cases s with
    | nil => simp [jsSplitAux]
    | cons c rest =>
      simp only [jsSplitAux]
      by_cases hc : c = ';'
      · subst hc
        rw [if_pos ⟨by simp, by simp [List.isPrefixOf]⟩]
        simp
      · rw [if_neg (by simp [List.isPrefixOf, hc, Ne.symm hc])]
        rw [ih rest (c :: acc) (by simpa using Nat.le_of_succ_le_succ hs)]
        simp [hc]

/-- The `split(";")[0]` idiom of `login` equals truncation at the first
semicolon. -/
theorem split_semicolon_head (c : String) :
    (jsSplit c ";").headD c = String.mk (c.data.takeWhile (fun ch => ch ≠ ';')) := by
  have hne := jsSplitAux_ne_nil [';'] (c.data.length + 1) c.data []
  obtain ⟨x, xs, hx⟩ := List.exists_cons_of_ne_nil hne
  have hh := jsSplitAux_semi_head (c.data.length + 1) c.data [] (Nat.le_succ _)
  rw [hx, List.headD_cons] at hh
  show ((jsSplitAux [';'] (c.data.length + 1) c.data []).map String.mk).headD c = _
  rw [hx]
  simp [hh]

/-- C2: for every login whose final response carries a Set-Cookie list,
the stored `authCookies` are exactly the entries whose name starts with
"wordpress_" or "wp_", each truncated to the text before the first ';',
in response order; the documented example keeps only
"wordpress_logged_in=xyz"; and login fails with an error when the header
is absent, empty, or yields zero matching cookies. -/
theorem login_authCookies_spec (s : SessionState) (sc : Option (List String)) :
    (∀ l r, sc = some l → (loginCookieStep s sc).2 = Except.ok r →
      r = (l.filter (fun c => jsStartsWith c "wordpress_" || jsStartsWith c "wp_")).map
            (fun c => String.mk (c.data.takeWhile (fun ch => ch ≠ ';')))) ∧
    (loginCookieStep s (some ["sessionid=abc", "wordpress_logged_in=xyz"])).2 =
      Except.ok ["wordpress_logged_in=xyz"] ∧
    (loginCookieStep s (some ["sessionid=abc", "wordpress_logged_in=xyz"])).1.authCookies =
      some ["wordpress_logged_in=xyz"] ∧
    (sc = none → ∃ e, (loginCookieStep s sc).2 = Except.error e) ∧
    (sc = some [] → ∃ e, (loginCookieStep s sc).2 = Except.error e) ∧
    (∀ l, sc = some l → filterAuthCookies l = [] →
      ∃ e, (loginCookieStep s sc).2 = Except.error e) := by
  have hfun : (fun c : String => (jsSplit c ";").headD c) =
      (fun c : String => String.mk (c.data.takeWhile (fun ch => ch ≠ ';'))) :=
    funext split_semicolon_head
  refine ⟨?_, rfl, rfl, ?_, ?_, ?_⟩
  · intro l r hl hr
    subst hl
    simp only [loginCookieStep] at hr
    by_cases hj : (jsJoin "," l == "") = true
    · rw [if_pos hj] at hr
      cases hr
    · rw [if_neg hj] at hr
      by_cases hz : (filterAuthCookies l).length == 0
      · rw [if_pos hz] at hr
        cases hr
      · rw [if_neg hz] at hr
        cases hr
        rw [filterAuthCookies, hfun]
  · intro h
    subst h
    exact ⟨_, rfl⟩
  · intro h
    subst h
    exact ⟨_, rfl⟩
  · intro l hl hf
    subst hl
    simp only [loginCookieStep]
    by_cases hj : (jsJoin "," l == "") = true
    · rw [if_pos hj]
      exact ⟨_, rfl⟩
    · rw [if_neg hj]
      rw [if_pos (by simp [hf])]
      exact ⟨_, rfl⟩

/-- C2 witness: the theorem applied at the documented example. -/
theorem login_authCookies_spec_witness :
    (loginCookieStep ⟨none⟩ (some ["sessionid=abc", "wordpress_logged_in=xyz"])).2 =
      Except.ok ["wordpress_logged_in=xyz"] ∧
    ["wordpress_logged_in=xyz"] =
      ((["sessionid=abc", "wordpress_logged_in=xyz"].filter
          (fun c => jsStartsWith c "wordpress_" || jsStartsWith c "wp_")).map
        (fun c => String.mk (c.data.takeWhile (fun ch => ch ≠ ';')))) := by
  have h := login_authCookies_spec ⟨none⟩ (some ["sessionid=abc", "wordpress_logged_in=xyz"])
  exact ⟨h.2.1, h.1 _ _ rfl h.2.1⟩

/-- C3 counterexample: a previously authenticated session whose login
response carries no Set-Cookie header: the login throws at line 206
before `_authCookies` is reassigned at line 211, so the session remains
authenticated after the failure, contradicting the claim that every
failed login leaves `authenticated` false. -/
theorem login_failure_keeps_auth_counterexample :
    authenticated ⟨some ["wordpress_logged_in=old"]⟩ = true ∧
    (loginCookieStep ⟨some ["wordpress_logged_in=old"]⟩ none).2 =
      Except.error "No cookies received in server response." ∧
    authenticated (loginCookieStep ⟨some ["wordpress_logged_in=old"]⟩ none).1 = true :=
  ⟨rfl, rfl, rfl⟩

/-- C3 amended: a login failing before the cookie-filtering step (absent
or empty Set-Cookie) leaves the cookie state unchanged — in particular a
never-authenticated session stays unauthenticated, but a previously
authenticated one keeps its cookies; a login failing at the filtering
step (no prefixed cookie) clears the cookies and leaves `authenticated`
false. -/
theorem login_failure_auth_state (s : SessionState) (sc : Option (List String))
    (l : List String) :
    ((loginCookieStep s none).1 = s) ∧
    (jsJoin "," l = "" → (loginCookieStep s (some l)).1 = s) ∧
    (filterAuthCookies l = [] → jsJoin "," l ≠ "" →
      (loginCookieStep s (some l)).2 =
        Except.error "Authentication cookies not received in server response." ∧
      authenticated (loginCookieStep s (some l)).1 = false) ∧
    (authenticated s = false → ∀ e, (loginCookieStep s sc).2 = Except.error e →
      authenticated (loginCookieStep s sc).1 = false) := by
  refine ⟨rfl, ?_, ?_, ?_⟩
  · intro hj
    simp [loginCookieStep, hj]
  · intro hf hj
    simp only [loginCookieStep]
    rw [if_neg (by simp [hj])]
    rw [if_pos (by simp [hf])]
    exact ⟨rfl, by simp [authenticated, hf]⟩
  · intro hs e he
    cases sc with
    | none => exact hs
    | some l' =>
      simp only [loginCookieStep] at he ⊢
      by_cases hj : (jsJoin "," l' == "") = true
      · rw [if_pos hj] at he ⊢
        exact hs
      · rw [if_neg hj] at he ⊢
        by_cases hz : ((filterAuthCookies l').length == 0) = true
        · rw [if_pos hz] at he ⊢
          simp only [authenticated]
          simpa using hz
        · rw [if_neg hz] at he
          cases he

/-- C3 amended witness: the theorem applied to a fresh session and an
absent Set-Cookie header. -/
theorem login_failure_auth_state_witness :
    authenticated (loginCookieStep ⟨none⟩ none).1 = false :=
  (login_failure_auth_state ⟨none⟩ none []).2.2.2 rfl
    "No cookies received in server response." rfl

/-- C4: on an HTTP/1.1 exchange over a supported scheme, a low-level
transport error (e.g. connection refused) does not reject the completion
promise with a wrapped Error: the `error` listener is attached at line
482, after the Promise executor has closed at line 478, so its body
`reject(new Error(error))` references the executor parameter `reject`
out of scope; firing the listener raises a ReferenceError and the
promise remains unsettled (it is neither resolved nor rejected, and no
retry happens either way). -/
theorem h1_transport_error_not_rejected :
    (buildHTTP1Request "http:" true).promise = PromiseState.wiredForResponse ∧
    h1TransportErrorEvent (buildHTTP1Request "http:" true) "connect ECONNREFUSED" =
      (PromiseState.wiredForResponse, some JSErr.referenceErrorRejectUndefined) ∧
    h1TransportErrorEvent (buildHTTP1Request "https:" false) "connect ECONNREFUSED" =
      (PromiseState.wiredForResponse, some JSErr.referenceErrorRejectUndefined) :=
  ⟨rfl, rfl, rfl⟩

/-- C5: for a scheme that is neither http nor https, both adapters
reject the completion promise with the unsupported-protocol error and
attempt no network call, but the two adapters do not mirror each other's
error propagation: `buildHTTP1Request` goes on to dereference its null
request (lines 479-484) and throws a synchronous TypeError out of the
builder, while `buildHTTP2Request` returns the exchange with the
rejected promise and throws nothing. -/
theorem unsupported_scheme_behavior :
    (buildHTTP1Request "ftp:" false).promise =
      PromiseState.rejected (JSErr.unsupportedProtocol "ftp:") ∧
    (buildHTTP1Request "ftp:" false).networkAttempted = false ∧
    (buildHTTP1Request "ftp:" false).syncThrown = some JSErr.typeErrorNullDeref ∧
    (buildHTTP1Request "ftp:" true).syncThrown = some JSErr.typeErrorNullDeref ∧
    (buildHTTP2Request "ftp:").promise =
      PromiseState.rejected (JSErr.unsupportedProtocol "ftp:") ∧
    (buildHTTP2Request "ftp:").networkAttempted = false ∧
    (buildHTTP2Request "ftp:").syncThrown = none :=
  ⟨rfl, rfl, rfl, rfl, rfl, rfl, rfl⟩

/-- C6 counterexample: a response body that does not contain the
"var wpApiSettings" marker but whose first brace block is valid JSON:
`indexOf` returns -1 for the marker, the follow-up searches clamp -1 to
position 0, the extracted text parses, and `getAPISettings` returns
`Except.ok true` instead of propagating a parse error. -/
theorem getAPISettings_marker_absent_counterexample :
    jsIndexOf
      "\x7b\"root\":\"https://x/wp-json/\",\"nonce\":\"n1\",\"versionString\":\"wp/v2/\"\x7d;junk"
      "var wpApiSettings" 0 = -1 ∧
    getAPISettings true false
      "\x7b\"root\":\"https://x/wp-json/\",\"nonce\":\"n1\",\"versionString\":\"wp/v2/\"\x7d;junk"
      = Except.ok true :=
  ⟨by decide, rfl⟩

set_option maxRecDepth 100000 in
/-- C6 amended: `getAPISettings` rejects when unauthenticated, returns
true on success, returns false (not an error) when the exchange's
initiation throws synchronously, and propagates a parse error whenever
the extracted text fails to parse — but marker absence alone does not
force an error, because the index searches fall back to position 0. -/
theorem getAPISettings_spec (body : String) (endThrows : Bool) :
    (getAPISettings false endThrows body =
      Except.error "You must be authenticated (login) before getting API settings.") ∧
    (getAPISettings true true body = Except.ok false) ∧
    (getAPISettings true false
      "<html> var wpApiSettings = \x7b\"root\":\"https://x/wp-json/\",\"nonce\":\"n1\",\"versionString\":\"wp/v2/\"\x7d; </html>"
      = Except.ok true) ∧
    (getAPISettings true false "<html>no marker and no braces</html>" =
      Except.error "SyntaxError: unexpected token in JSON") ∧
    (∀ b, parseFlatJSON (extractSettingsStr b) = none →
      getAPISettings true false b = Except.error "SyntaxError: unexpected token in JSON") := by
  refine ⟨rfl, rfl, rfl, rfl, ?_⟩
  intro b hb
  simp [getAPISettings, hb]

/-- C6 amended witness: the theorem applied at a concrete unparseable
body. -/
theorem getAPISettings_spec_witness :
    getAPISettings true false "<html>no braces here</html>" =
      Except.error "SyntaxError: unexpected token in JSON" :=
  (getAPISettings_spec "<html>no braces here</html>" false).2.2.2.2
    "<html>no braces here</html>" rfl

/-- C7: the resolved callAPI result assigns the response object itself
to the `status` field (line 352: `responseObj.status = reqResObj.response`),
not the exchange's numeric status code; for a response with statusCode
200 the stored `status` is an object, not the number 200 (compare the
login assembly, which does store `response.statusCode`). -/
theorem callAPI_status_field_is_response_object :
    (∀ req res data, getField (callAPIResponseObj req res data) "status" = some res) ∧
    getField
      (callAPIResponseObj (JSVal.vStr "req") (JSVal.vObj [("statusCode", JSVal.vNum 200)])
        (JSVal.vStr "body")) "status" = some (JSVal.vObj [("statusCode", JSVal.vNum 200)]) ∧
    ((getField
      (callAPIResponseObj (JSVal.vStr "req") (JSVal.vObj [("statusCode", JSVal.vNum 200)])
        (JSVal.vStr "body")) "status").map jsTypeOf = some "object") ∧
    jsTypeOf (JSVal.vNum 200) = "number" ∧
    ("object" == "number") = false ∧
    getField
      (loginResponseObj (JSVal.vStr "req") (JSVal.vObj [("statusCode", JSVal.vNum 200)])
        (JSVal.vNum 200) JSVal.vNull JSVal.vNull) "status" = some (JSVal.vNum 200) :=
  ⟨fun _ _ _ => rfl, rfl, rfl, rfl, rfl, rfl⟩

/-- Redefining a property leaves exactly one binding of its name when
there was at most one before, and in general does not increase the
count. -/
theorem countKey_defineProp_self (h : List (String × String)) (n v : String) :
    countKey (defineProp h n v) n = if countKey h n = 0 then 1 else countKey h n := by
  induction h with
  | nil => simp [defineProp, countKey]
  | cons p rest ih =>
    obtain ⟨k, w⟩ := p
    simp only [defineProp]
    by_cases hk : (k == n) = true
    · rw [if_pos hk]
      simp [countKey, List.countP_cons, hk]
    · rw [if_neg hk]
      have hcons : countKey ((k, w) :: rest) n = countKey rest n := by
        simp [countKey, List.countP_cons, hk]
      have hcons2 : countKey ((k, w) :: defineProp rest n v) n =
          countKey (defineProp rest n v) n := by
        simp [countKey, List.countP_cons, hk]
      rw [hcons2, hcons, ih]

/-- After redefining a property, looking it up yields the new value. -/
theorem lookupHeader_defineProp_self (h : List (String × String)) (n v : String) :
    lookupHeader (defineProp h n v) n = some v := by
  induction h with
  | nil => simp [defineProp, lookupHeader, List.find?]
  | cons p rest ih =>
    obtain ⟨k, w⟩ := p
    simp only [defineProp]
    by_cases hk : (k == n) = true
    · rw [if_pos hk]
      simp [lookupHeader, List.find?, hk]
    · rw [if_neg hk]
      simp only [lookupHeader, List.find?, hk] at ih ⊢
      exact ih

/-- C8: every header collection built by `buildRequest` holds exactly
one `Cookie` binding and — when the session is authenticated, `useAuth`
is true and a nonce is known — exactly one `X-WP-Nonce` binding; and
repeated `addHeader` calls with the same name overwrite the existing
binding in the collection rather than duplicating it. -/
theorem buildRequest_header_uniqueness (isAuth useAuth : Bool) (authHdr userAgent : String)
    (apiNonce : Option String) (data : Option String) :
    countKey (buildRequestHeaders isAuth useAuth authHdr userAgent apiNonce data) "Cookie" = 1 ∧
    (isAuth = true → useAuth = true → ∀ n, apiNonce = some n →
      countKey (buildRequestHeaders isAuth useAuth authHdr userAgent apiNonce data)
        "X-WP-Nonce" = 1) ∧
    (∀ h n v1 v2, countKey (addHeader n v2 (some (addHeader n v1 (some h)))) n =
      countKey (addHeader n v1 (some h)) n) ∧
    (∀ h n v1 v2, lookupHeader (addHeader n v2 (some (addHeader n v1 (some h)))) n =
      some v2) := by
  refine ⟨?_, ?_, ?_, ?_⟩
  · cases isAuth <;> cases useAuth <;> cases apiNonce <;> cases data <;> rfl
  · intro h1 h2 n hn
    subst h1
    subst h2
    subst hn
    cases data <;> rfl
  · intro h n v1 v2
    show countKey (defineProp (defineProp h n v1) n v2) n = countKey (defineProp h n v1) n
    rw [countKey_defineProp_self (defineProp h n v1) n v2, countKey_defineProp_self h n v1]
    by_cases hx : countKey h n = 0 <;> simp [hx]
  · intro h n v1 v2
    exact lookupHeader_defineProp_self _ n v2

/-- C8 witness: the theorem applied at an authenticated session with a
known nonce. -/
theorem buildRequest_header_uniqueness_witness :
    countKey (buildRequestHeaders true true "wordpress_a=1" "UA" (some "n1") none)
      "X-WP-Nonce" = 1 :=
  (buildRequest_header_uniqueness true true "wordpress_a=1" "UA" (some "n1") none).2.1
    rfl rfl "n1" rfl

/-- C9 counterexample: the spec's own example fails on the code.  The
base path "/blog/" joined with the given path "/wp-json/users" forms
"/blog///wp-json/users", and the single `split("//").join("/")` pass
leaves "/blog//wp-json/users" — which still contains a doubled
separator and differs from the claimed "/blog/wp-json/users". -/
theorem path_join_double_slash_counterexample :
    buildRequestFullPath "/blog/" "/wp-json/users" = "/blog//wp-json/users" ∧
    jsIncludes (buildRequestFullPath "/blog/" "/wp-json/users") "//" = true ∧
    (buildRequestFullPath "/blog/" "/wp-json/users" == "/blog/wp-json/users") = false :=
  ⟨rfl, by decide, by decide⟩

/-- C9 amended: path joining applies one left-to-right pass replacing
each non-overlapping "//" by "/" (both in `buildRequest` and in the
`callAPI` route): an isolated doubled separator is collapsed, but the
joining slash inserted between base path and given path can create a
triple slash that collapses only to a double one. -/
theorem path_join_single_pass :
    buildRequestFullPath "/blog" "/wp-json/users" = "/blog/wp-json/users" ∧
    buildRequestFullPath "/blog/" "wp-json/users" = "/blog/wp-json/users" ∧
    buildRequestFullPath "/" "wp-login.php" = "/wp-login.php" ∧
    buildRequestFullPath "/blog/" "/wp-json/users" = "/blog//wp-json/users" ∧
    callAPIRoute "?rest_route/" "wp/v2/" "users/me" = "?rest_route/wp/v2/users/me" ∧
    callAPIRoute "?rest_route//" "wp/v2/" "users/me" = "?rest_route/wp/v2/users/me" :=
  ⟨rfl, rfl, rfl, rfl, rfl, rfl⟩

/-- Once the flag is true, every further session operation keeps it
true. -/
theorem foldl_stepUseHTTP2_true (tail : List SessionOp) :
    List.foldl stepUseHTTP2 true tail = true := by
  induction tail with
  | nil => rfl
  | cons op rest ih =>
    have hstep : stepUseHTTP2 true op = true := by
      cases op with
      | loginObserve hs => simp [stepUseHTTP2]
      | other => rfl
    simp [List.foldl, hstep, ih]

/-- The flag can only become true through an operation that observed an
upgrade signal. -/
theorem runUseHTTP2_true_source (ops : List SessionOp) :
    ∀ b, List.foldl stepUseHTTP2 b ops = true →
      b = true ∨ ∃ hs, SessionOp.loginObserve hs ∈ ops ∧ isHTTP2Upgrade hs = true := by
  induction ops with
  | nil =>
    intro b h
    exact Or.inl h
  | cons op rest ih =>
    intro b h
    rcases ih (stepUseHTTP2 b op) h with h' | ⟨hs, hmem, hup⟩
    · cases op with
      | loginObserve hs =>
        by_cases hup : isHTTP2Upgrade hs = true
        · exact Or.inr ⟨hs, List.mem_cons_self _ _, hup⟩
        · rw [stepUseHTTP2, if_neg hup] at h'
          exact Or.inl h'
      | other => exact Or.inl h'
    · exact Or.inr ⟨hs, List.mem_cons_of_mem _ hmem, hup⟩

/-- C10: `useHTTP2` is false for a newly constructed client, becomes
true only through a login exchange whose response headers signal an
HTTP/2 upgrade, and once true no session operation ever makes it false
again. -/
theorem useHTTP2_default_and_sticky (ops tail : List SessionOp) (op : SessionOp) (b : Bool) :
    runUseHTTP2 [] = false ∧
    (stepUseHTTP2 b op = true → b = true ∨
      ∃ hs, op = SessionOp.loginObserve hs ∧ isHTTP2Upgrade hs = true) ∧
    (b = true → List.foldl stepUseHTTP2 b tail = true) ∧
    (runUseHTTP2 ops = true →
      ∃ hs, SessionOp.loginObserve hs ∈ ops ∧ isHTTP2Upgrade hs = true) := by
  refine ⟨rfl, ?_, ?_, ?_⟩
  · intro h
    cases op with
    | loginObserve hs =>
      by_cases hup : isHTTP2Upgrade hs = true
      · exact Or.inr ⟨hs, rfl, hup⟩
      · rw [stepUseHTTP2, if_neg hup] at h
        exact Or.inl h
    | other => exact Or.inl h
  · intro hb
    subst hb
    exact foldl_stepUseHTTP2_true tail
  · intro h
    rcases runUseHTTP2_true_source ops false h with h' | hx
    · cases h'
    · exact hx

/-- C10 witness: stickiness applied at a concrete operation list. -/
theorem useHTTP2_default_and_sticky_witness :
    List.foldl stepUseHTTP2 true [SessionOp.other] = true :=
  (useHTTP2_default_and_sticky [] [SessionOp.other] SessionOp.other true).2.2.1 rfl

end WPAPILib
